import Mathlib

/-!
Verification of the l2beat repository fragments: the retrying discovery
orchestrator (DiscoveryRunner), the percentage-change formatter, the
detailed asset TVL controller, and the token TVL view calculator.

The DiscoveryRunner implementation itself is not among the provided source
files (only its test suite is), so the orchestrator is modelled from the
specification; all other components are translated directly from the
TypeScript source.
-/

namespace DiscoveryRunner

/-- Modelled from the spec: the Pass Configuration value object of the
missing DiscoveryRunner implementation, holding a chain identifier, a
project name and a set of initial addresses (addresses modelled as
natural numbers). -/
structure DiscoveryConfig where
  name : String
  chain : Nat
  initialAddresses : List Nat
deriving DecidableEq, Repr

/-- Modelled from the spec: the Run Options record of the missing
DiscoveryRunner implementation. The defaults follow section 3 of the
spec: maxRetries defaults to 0 and retryDelayMs defaults to 0. The
retry delay has no observable effect in this model since real time is
not modelled. -/
structure RunOptions where
  runSanityCheck : Bool
  injectInitialAddresses : Bool
  maxRetries : Nat := 0
  retryDelayMs : Nat := 0
deriving DecidableEq, Repr

/-- A discovery result is an opaque ordered sequence of discovered-entry
records; entries are modelled as natural numbers. -/
abbrev DiscoveryResult := List Nat

deriving instance DecidableEq for Except

/-- The behaviour of the external discovery engine: the outcome of its
n-th invocation (0-based), either a result or an error message. The test
mocks determine outcomes by invocation count alone, so the behaviour is
indexed by the invocation counter; the arguments of each invocation are
recorded separately in a trace. -/
abbrev EngineBehavior := Nat → Except String DiscoveryResult

/-- Modelled from the spec: the bounded retry loop of the missing
DiscoveryRunner implementation (section 4.1 step 3). It attempts the
discovery pass; on failure with retries remaining it re-attempts, and on
exhaustion it propagates the last failure unchanged. The trace records
the arguments of every engine invocation in order; its length is the
invocation counter. -/
def discoverWithRetry (eng : EngineBehavior) (config : DiscoveryConfig)
    (blockNumber : Nat) :
    Nat → List (DiscoveryConfig × Nat) →
      Except String DiscoveryResult × List (DiscoveryConfig × Nat)
  | retriesLeft, tr =>
    match eng tr.length, retriesLeft with
    | .ok r, _ => (.ok r, tr ++ [(config, blockNumber)])
    | .error e, 0 => (.error e, tr ++ [(config, blockNumber)])
    | .error _, n + 1 =>
        discoverWithRetry eng config blockNumber n (tr ++ [(config, blockNumber)])

/-- The observable outcome of one run call: the returned result (or the
propagated failure), the trace of engine invocations with their
arguments, and the caller-supplied configuration object as it stands
after the call. -/
structure RunOutput where
  result : Except String DiscoveryResult
  trace : List (DiscoveryConfig × Nat)
  callerConfig : DiscoveryConfig
deriving DecidableEq, Repr

/-- Modelled from the spec: the public run operation of the missing
DiscoveryRunner implementation (section 4.1). When injectInitialAddresses
is set, a derived configuration is produced as a new value whose
initial-address set is replaced by the persisted addresses (read from the
external configuration reader, modelled by the persisted argument); the
caller's configuration is never written to. The pass runs under the
retry policy, and when runSanityCheck is set a second pass with the same
configuration, block number and retry policy follows; the result of the
first successful pass is returned. -/
def run (eng : EngineBehavior) (persisted : List Nat)
    (config : DiscoveryConfig) (blockNumber : Nat)
    (options : RunOptions) : RunOutput :=
  let derived :=
    if options.injectInitialAddresses then
      { config with initialAddresses := persisted }
    else config
  let p1 := discoverWithRetry eng derived blockNumber options.maxRetries []
  match p1.1 with
  | .error e => ⟨.error e, p1.2, config⟩
  | .ok res =>
    if options.runSanityCheck then
      let p2 := discoverWithRetry eng derived blockNumber options.maxRetries p1.2
      match p2.1 with
      | .error e => ⟨.error e, p2.2, config⟩
      | .ok _ => ⟨.ok res, p2.2, config⟩
    else ⟨.ok res, p1.2, config⟩

/-- The mock configuration used by the test suite: project-a on chain 1
with no initial addresses. -/
def mockConfig : DiscoveryConfig :=
  ⟨"project-a", 1, []⟩

/-- The engine of the retry tests: it fails on invocations 0 and 1 with
the error message error, and succeeds with an empty result from
invocation 2 on. -/
def engFailTwice : EngineBehavior :=
  fun n => if n < 2 then .error ("error") else .ok []

/-- Counts the consecutive failing invocations of the engine starting at
invocation k, looking at most fuel invocations ahead. -/
def failStreak (eng : EngineBehavior) : Nat → Nat → Nat
  | _, 0 => 0
  | k, f + 1 =>
    match eng k with
    | .ok _ => 0
    | .error _ => failStreak eng (k + 1) (f + 1 - 1) + 1

theorem failStreak_succ (eng : EngineBehavior) (k f : Nat) :
    failStreak eng k (f + 1) =
      match eng k with
      | .ok _ => 0
      | .error _ => failStreak eng (k + 1) f + 1 := by
  rfl

theorem discoverWithRetry_length (eng : EngineBehavior)
    (c : DiscoveryConfig) (b : Nat) :
    ∀ (m : Nat) (tr : List (DiscoveryConfig × Nat)),
      (discoverWithRetry eng c b m tr).2.length =
        tr.length + (min (failStreak eng tr.length (m + 1)) m + 1) := by
  intro m
  induction m with
  | zero =>
    intro tr
    cases h : eng tr.length <;>
      simp [discoverWithRetry, h, failStreak_succ]
  | succ n ih =>
    intro tr
    cases h : eng tr.length with
    | ok r =>
      simp [discoverWithRetry, h, failStreak_succ]
    | error e =>
      have := ih (tr ++ [(c, b)])
      simp [discoverWithRetry, h, failStreak_succ, this, Nat.succ_min_succ]
      omega

/-- Every invocation trace produced by the retry loop extends the prior
trace, and its first new entry carries the configuration and block number
the loop was given. -/
theorem discoverWithRetry_trace_shape (eng : EngineBehavior)
    (c : DiscoveryConfig) (b : Nat) :
    ∀ (m : Nat) (tr : List (DiscoveryConfig × Nat)),
      ∃ rest, (discoverWithRetry eng c b m tr).2 = tr ++ ((c, b) :: rest) := by
  intro m
  induction m with
  | zero =>
    intro tr
    cases h : eng tr.length <;>
      exact ⟨[], by simp [discoverWithRetry, h]⟩
  | succ n ih =>
    intro tr
    cases h : eng tr.length with
    | ok r => exact ⟨[], by simp [discoverWithRetry, h]⟩
    | error e =>
      obtain ⟨rest, hrest⟩ := ih (tr ++ [(c, b)])
      refine ⟨(c, b) :: rest, ?_⟩
      simp [discoverWithRetry, h, hrest]

/-- If the engine succeeds at the current invocation counter, the retry
loop stops at once with that result after exactly one invocation. -/
theorem discoverWithRetry_ok (eng : EngineBehavior)
    (c : DiscoveryConfig) (b : Nat) (m : Nat)
    (tr : List (DiscoveryConfig × Nat)) (r : DiscoveryResult)
    (h : eng tr.length = .ok r) :
    discoverWithRetry eng c b m tr = (.ok r, tr ++ [(c, b)]) := by
  cases m <;> simp [discoverWithRetry, h]

/-- C1: for every engine behaviour, persisted address set, pass
configuration, block number and run options (hence all combinations of
injectInitialAddresses and runSanityCheck, and whether the run returns a
result or propagates a failure), the caller-supplied configuration after
run equals the configuration supplied before the call: run never
observably mutates the caller's configuration object. -/
theorem run_never_mutates_config (eng : EngineBehavior)
    (persisted : List Nat) (cfg : DiscoveryConfig) (bn : Nat)
    (opts : RunOptions) :
    (run eng persisted cfg bn opts).callerConfig = cfg := by
  unfold run
  dsimp only
  split
  · rfl
  · split
    · split
      · rfl
      · rfl
    · rfl

/-- C2: with the engine that fails on its first two invocations and
succeeds on the third, run with maxRetries 1 (sanity check and address
injection off) propagates exactly the error value the engine raised on
its second (last) attempt, and the engine is invoked exactly 2 times. -/
theorem run_retry_exhaustion_propagates :
    (run engFailTwice [] mockConfig 1
        { runSanityCheck := false, injectInitialAddresses := false,
          maxRetries := 1, retryDelayMs := 10 }).result = .error ("error") ∧
    (run engFailTwice [] mockConfig 1
        { runSanityCheck := false, injectInitialAddresses := false,
          maxRetries := 1, retryDelayMs := 10 }).trace.length = 2 ∧
    engFailTwice 1 = .error ("error") := by
  decide

/-- C3: with the engine that fails on its first two invocations and
succeeds on the third, run with maxRetries 2 succeeds after exactly 3
engine invocations; in general one retry-governed pass performs exactly
min(failStreak, maxRetries) + 1 engine invocations, i.e. one plus the
number of failed attempts capped at maxRetries, so retrying stops at the
first success. -/
theorem run_bounded_retry_success :
    ((run engFailTwice [] mockConfig 1
        { runSanityCheck := false, injectInitialAddresses := false,
          maxRetries := 2, retryDelayMs := 10 }).result = .ok [] ∧
     (run engFailTwice [] mockConfig 1
        { runSanityCheck := false, injectInitialAddresses := false,
          maxRetries := 2, retryDelayMs := 10 }).trace.length = 3) ∧
    ∀ (eng : EngineBehavior) (c : DiscoveryConfig) (b m : Nat)
      (tr : List (DiscoveryConfig × Nat)),
      (discoverWithRetry eng c b m tr).2.length =
        tr.length + (min (failStreak eng tr.length (m + 1)) m + 1) := by
  constructor
  · constructor
    · decide
    · decide
  · intro eng c b m tr
    exact discoverWithRetry_length eng c b m tr

/-- C4: for every configuration, block number, maxRetries and delay, if
the engine always succeeds then run with runSanityCheck on and address
injection off invokes the engine exactly 2 times; and whenever the
engine succeeds on its first invocation, run with runSanityCheck off
invokes the engine exactly once. -/
theorem run_sanity_check_invocation_count (eng : EngineBehavior)
    (persisted : List Nat) (cfg : DiscoveryConfig) (bn m d : Nat) :
    ((∀ n, ∃ r, eng n = .ok r) →
      (run eng persisted cfg bn
        ⟨true, false, m, d⟩).trace.length = 2) ∧
    (∀ (eng2 : EngineBehavior) (inj : Bool) (r0 : DiscoveryResult),
      eng2 0 = .ok r0 →
      (run eng2 persisted cfg bn
        ⟨false, inj, m, d⟩).trace.length = 1) := by
  constructor
  · intro h
    obtain ⟨r0, h0⟩ := h 0
    obtain ⟨r1, h1⟩ := h 1
    have e1 := discoverWithRetry_ok eng cfg bn m [] r0 (by simpa using h0)
    have e2 := discoverWithRetry_ok eng cfg bn m [(cfg, bn)] r1 (by simpa using h1)
    simp [run, e1, e2]
  · intro eng2 inj r0 h0
    cases hi : inj with
    | false =>
      have e1 := discoverWithRetry_ok eng2 cfg bn m [] r0 (by simpa using h0)
      simp [run, e1]
    | true =>
      have e1 := discoverWithRetry_ok eng2
        { cfg with initialAddresses := persisted } bn m [] r0 (by simpa using h0)
      simp [run, e1]

/-- C5: for every engine behaviour, persisted address set, configuration,
block number, sanity-check flag, maxRetries and delay, run with address
injection on makes its first engine invocation with the derived
configuration that agrees with the original in every field except that
its initial-address set is replaced by (not unioned with) the persisted
addresses, and with the block number passed through unchanged. -/
theorem run_injects_initial_addresses (eng : EngineBehavior)
    (persisted : List Nat) (cfg : DiscoveryConfig) (bn : Nat)
    (sc : Bool) (m d : Nat) :
    (run eng persisted cfg bn ⟨sc, true, m, d⟩).trace.head? =
      some ({ cfg with initialAddresses := persisted }, bn) := by
  obtain ⟨rest1, h1⟩ := discoverWithRetry_trace_shape eng
    { cfg with initialAddresses := persisted } bn m []
  cases hr1 : (discoverWithRetry eng
      { cfg with initialAddresses := persisted } bn m []).1 with
  | error e => simp [run, hr1, h1]
  | ok r =>
    cases sc with
    | false => simp [run, hr1, h1]
    | true =>
      obtain ⟨rest2, h2⟩ := discoverWithRetry_trace_shape eng
        { cfg with initialAddresses := persisted } bn m
        (({ cfg with initialAddresses := persisted }, bn) :: rest1)
      cases hr2 : (discoverWithRetry eng
          { cfg with initialAddresses := persisted } bn m
          (({ cfg with initialAddresses := persisted }, bn) :: rest1)).1 with
      | error e2 => simp [run, hr1, h1, hr2, h2]
      | ok r2 => simp [run, hr1, h1, hr2, h2]

/-- C6: when maxRetries is left unspecified in the run options (so the
default 0 applies) and the engine fails on its first invocation, run
fails immediately with that same error after exactly 1 engine
invocation. -/
theorem run_zero_retry_default (eng : EngineBehavior)
    (persisted : List Nat) (cfg : DiscoveryConfig) (bn : Nat)
    (e : String) (h : eng 0 = .error e) :
    (run eng persisted cfg bn
      { runSanityCheck := false, injectInitialAddresses := false }).result
        = .error e ∧
    (run eng persisted cfg bn
      { runSanityCheck := false, injectInitialAddresses := false }).trace.length
        = 1 := by
  constructor
  · simp [run, discoverWithRetry, h]
  · simp [run, discoverWithRetry, h]

/-- The always-succeeding engine used to witness the sanity-check count
theorem. -/
def engAlwaysOk : EngineBehavior :=
  fun _ => .ok []

/-- Witness for C4 at a concrete always-succeeding engine: the sanity
check run invokes the engine twice and the plain run invokes it once. -/
theorem run_sanity_check_invocation_count_witness :
    (run engAlwaysOk [] mockConfig 1 ⟨true, false, 0, 0⟩).trace.length = 2 ∧
    (run engAlwaysOk [] mockConfig 1 ⟨false, false, 0, 0⟩).trace.length = 1 := by
  have h := run_sanity_check_invocation_count engAlwaysOk [] mockConfig 1 0 0
  exact ⟨h.1 (fun n => ⟨[], rfl⟩), h.2 engAlwaysOk false [] rfl⟩

/-- The always-failing engine used to witness the zero-retry default
theorem. -/
def engAlwaysFail : EngineBehavior :=
  fun _ => .error ("boom")

/-- Witness for C6 at a concrete always-failing engine: run with options
leaving maxRetries unspecified fails with the engine's error after one
invocation. -/
theorem run_zero_retry_default_witness :
    (run engAlwaysFail [] mockConfig 1
      { runSanityCheck := false, injectInitialAddresses := false }).result
        = .error ("boom") ∧
    (run engAlwaysFail [] mockConfig 1
      { runSanityCheck := false, injectInitialAddresses := false }).trace.length
        = 1 :=
  run_zero_retry_default engAlwaysFail [] mockConfig 1 ("boom") rfl

end DiscoveryRunner

namespace Utils

/-- JS toFixed with 2 fraction digits, modelled over the rationals
(packages/frontend/src/utils/utils.ts uses it inside formatPercent):
strip the sign, pick the integer closest to 100 times the magnitude with
ties resolved upward, and print it with exactly two fraction digits. -/
def toFixed2 (q : ℚ) : String :=
  let s := if q < 0 then "-" else ""
  let x := |q|
  let n : Nat := (⌊x * 100 + 1 / 2⌋).toNat
  let frac := n % 100
  s ++ toString (n / 100) ++ "." ++ (if frac < 10 then "0" else "") ++ toString frac

/-- formatPercent from packages/frontend/src/utils/utils.ts: renders
value times 100 with two decimals and a percent sign, prefixing a plus
when requested and the rendering is not negative. -/
def formatPercent (value : ℚ) (addPlus : Bool := false) : String :=
  let result := toFixed2 (value * 100) ++ "%"
  if addPlus && !(result.startsWith ("-")) then "+" ++ result else result

/-- getPercentageChange from packages/frontend/src/utils/utils.ts. The
second source parameter is a reserved word in Lean and is named thenN
here. Numbers are modelled as rationals. -/
def getPercentageChange (now thenN : ℚ) : String :=
  if now = thenN ∨ thenN = 0 then "+0.00%"
  else formatPercent (now / thenN - 1) true

/-- Division guarded against a zero divisor, used to instrument
getPercentageChange for the division-safety statement. -/
def qdiv (a b : ℚ) : Option ℚ :=
  if b = 0 then none else some (a / b)

/-- getPercentageChange with its division replaced by the guarded
division: it returns none exactly if the source expression now / thenN
would divide by zero. -/
def getPercentageChangeChecked (now thenN : ℚ) : Option String :=
  if now = thenN ∨ thenN = 0 then some ("+0.00%")
  else (qdiv now thenN).map (fun q => formatPercent (q - 1) true)

/-- C8: getPercentageChange returns the string +0.00% whenever the
divisor is zero or the two arguments are equal, and the instrumented
variant with guarded division always succeeds and agrees with it, so the
division in the source is only reached with a nonzero divisor. -/
theorem getPercentageChange_guarded (now thenN : ℚ) :
    ((thenN = 0 ∨ now = thenN) → getPercentageChange now thenN = "+0.00%") ∧
    getPercentageChangeChecked now thenN = some (getPercentageChange now thenN) := by
  constructor
  · intro h
    rcases h with h | h <;> simp [getPercentageChange, h]
  · by_cases h : now = thenN ∨ thenN = 0
    · simp [getPercentageChange, getPercentageChangeChecked, h]
    · push_neg at h
      simp [getPercentageChange, getPercentageChangeChecked, qdiv, h.1, h.2]

/-- Witness for C8 at concrete inputs: a zero divisor yields +0.00%, and
the guarded variant agrees with the plain one on a nonzero divisor. -/
theorem getPercentageChange_guarded_witness :
    getPercentageChange 5 0 = "+0.00%" ∧
    getPercentageChangeChecked 2 4 = some (getPercentageChange 2 4) :=
  ⟨(getPercentageChange_guarded 5 0).1 (Or.inl rfl),
   (getPercentageChange_guarded 2 4).2⟩

end Utils

namespace DetailedTvl

structure Token where
  id : Nat
  symbol : String
  decimals : Nat
deriving DecidableEq, Repr

structure ReportProject where
  projectId : Nat
deriving DecidableEq, Repr

inductive TvlError where
  | INVALID_PROJECT_OR_ASSET
  | NO_DATA
deriving DecidableEq, Repr

structure TvlApiChart where
  types : List String
  data : List (List ℚ)
deriving DecidableEq, Repr

structure TvlApiCharts where
  hourly : TvlApiChart
  sixHourly : TvlApiChart
  daily : TvlApiChart
deriving DecidableEq, Repr

inductive DetailedAssetTvlResult where
  | success (data : TvlApiCharts)
  | error (e : TvlError)
deriving DecidableEq, Repr

/-- The repository queries getDetailedAssetTvlApiResponse can perform,
recorded in invocation order so the theorems can speak about which
queries were made. -/
inductive RepoQuery where
  | findLatestTimestamp
  | getHourlyForDetailed
  | getSixHourlyForDetailed
  | getDailyForDetailed
deriving DecidableEq, Repr

/-- The injected collaborators of DetailedTvlController that
getDetailedAssetTvlApiResponse consults: the report status repository,
the three report queries, and the externally defined chart-data and
minimum-timestamp helpers. Identifiers and value types are modelled as
naturals; reports are opaque naturals. -/
structure Repos where
  findLatestTimestamp : Nat → Nat → Option Nat
  getHourlyForDetailed : Nat → Nat → Nat → Nat → Nat → List Nat
  getSixHourlyForDetailed : Nat → Nat → Nat → Nat → Nat → List Nat
  getDailyForDetailed : Nat → Nat → Nat → Nat → List Nat
  getProjectAssetChartData : List Nat → Nat → Nat → List (List ℚ)
  getHourlyMinTimestamp : Nat → Nat
  getSixHourlyMinTimestamp : Nat → Nat

/-- getDetailedAssetTvlApiResponse from
packages/backend/src/api/controllers/tvl/DetailedTvlController.ts,
returning its result together with the ordered list of repository
queries it performed. -/
def getDetailedAssetTvlApiResponse (repos : Repos)
    (tokens : List Token) (projects : List ReportProject)
    (projectId chainId assetId assetType : Nat) :
    DetailedAssetTvlResult × List RepoQuery :=
  let asset := tokens.find? (fun t => t.id == assetId)
  let project := projects.find? (fun p => p.projectId == projectId)
  match asset, project with
  | some asset, some _ =>
    match repos.findLatestTimestamp chainId assetType with
    | none => (.error .NO_DATA, [.findLatestTimestamp])
    | some timestampCandidate =>
      let hourlyReports := repos.getHourlyForDetailed projectId chainId
        assetId assetType (repos.getHourlyMinTimestamp timestampCandidate)
      let sixHourlyReports := repos.getSixHourlyForDetailed projectId chainId
        assetId assetType (repos.getSixHourlyMinTimestamp timestampCandidate)
      let dailyReports := repos.getDailyForDetailed projectId chainId
        assetId assetType
      let assetSymbol := asset.symbol.toLower
      let types : List String := ["timestamp", assetSymbol, "usd"]
      (.success
        { hourly :=
            { types := types,
              data := repos.getProjectAssetChartData hourlyReports asset.decimals 1 },
          sixHourly :=
            { types := types,
              data := repos.getProjectAssetChartData sixHourlyReports asset.decimals 6 },
          daily :=
            { types := types,
              data := repos.getProjectAssetChartData dailyReports asset.decimals 24 } },
       [.findLatestTimestamp, .getHourlyForDetailed,
        .getSixHourlyForDetailed, .getDailyForDetailed])
  | _, _ => (.error .INVALID_PROJECT_OR_ASSET, [])

/-- C9: getDetailedAssetTvlApiResponse answers INVALID_PROJECT_OR_ASSET
exactly if the asset id is not among the configured tokens or the
project id is not among the configured projects, and then performs no
repository query at all; when both exist and the latest-timestamp lookup
is empty it answers NO_DATA; when both exist and a latest timestamp is
found it answers with a success result. -/
theorem getDetailedAssetTvlApiResponse_errors (repos : Repos)
    (tokens : List Token) (projects : List ReportProject)
    (projectId chainId assetId assetType : Nat) :
    ((getDetailedAssetTvlApiResponse repos tokens projects projectId chainId
        assetId assetType).1 = .error .INVALID_PROJECT_OR_ASSET ↔
      (∀ t ∈ tokens, t.id ≠ assetId) ∨ (∀ p ∈ projects, p.projectId ≠ projectId)) ∧
    ((getDetailedAssetTvlApiResponse repos tokens projects projectId chainId
        assetId assetType).1 = .error .INVALID_PROJECT_OR_ASSET →
      (getDetailedAssetTvlApiResponse repos tokens projects projectId chainId
        assetId assetType).2 = []) ∧
    ((∃ t ∈ tokens, t.id = assetId) → (∃ p ∈ projects, p.projectId = projectId) →
      repos.findLatestTimestamp chainId assetType = none →
      (getDetailedAssetTvlApiResponse repos tokens projects projectId chainId
        assetId assetType).1 = .error .NO_DATA) ∧
    ((∃ t ∈ tokens, t.id = assetId) → (∃ p ∈ projects, p.projectId = projectId) →
      ∀ ts, repos.findLatestTimestamp chainId assetType = some ts →
      ∃ d, (getDetailedAssetTvlApiResponse repos tokens projects projectId chainId
        assetId assetType).1 = .success d) := by
  cases ha : tokens.find? (fun t => t.id == assetId) with
  | none =>
    have hall : ∀ t ∈ tokens, t.id ≠ assetId := by
      intro t ht
      have := List.find?_eq_none.mp ha t ht
      simpa using this
    refine ⟨?_, ?_, ?_, ?_⟩
    · refine ⟨fun _ => Or.inl hall, fun _ => ?_⟩
      simp [getDetailedAssetTvlApiResponse, ha]
    · intro _
      simp [getDetailedAssetTvlApiResponse, ha]
    · rintro ⟨t, ht, hid⟩ _ _
      exact absurd hid (hall t ht)
    · rintro ⟨t, ht, hid⟩ _ _ _
      exact absurd hid (hall t ht)
  | some a =>
    have hamem : a ∈ tokens := List.mem_of_find?_eq_some ha
    have haid : a.id = assetId := by simpa using List.find?_some ha
    cases hp : projects.find? (fun p => p.projectId == projectId) with
    | none =>
      have hall : ∀ p ∈ projects, p.projectId ≠ projectId := by
        intro p hmem
        have := List.find?_eq_none.mp hp p hmem
        simpa using this
      refine ⟨?_, ?_, ?_, ?_⟩
      · refine ⟨fun _ => Or.inr hall, fun _ => ?_⟩
        simp [getDetailedAssetTvlApiResponse, ha, hp]
      · intro _
        simp [getDetailedAssetTvlApiResponse, ha, hp]
      · rintro _ ⟨p, hmem, hid⟩ _
        exact absurd hid (hall p hmem)
      · rintro _ ⟨p, hmem, hid⟩ _ _
        exact absurd hid (hall p hmem)
    | some b =>
      have hbmem : b ∈ projects := List.mem_of_find?_eq_some hp
      have hbid : b.projectId = projectId := by simpa using List.find?_some hp
      refine ⟨?_, ?_, ?_, ?_⟩
      · constructor
        · intro h
          cases hts : repos.findLatestTimestamp chainId assetType <;>
            simp [getDetailedAssetTvlApiResponse, ha, hp, hts] at h
        · rintro (h | h)
          · exact absurd haid (h a hamem)
          · exact absurd hbid (h b hbmem)
      · intro h
        cases hts : repos.findLatestTimestamp chainId assetType <;>
          simp [getDetailedAssetTvlApiResponse, ha, hp, hts] at h
      · intro _ _ hts
        simp [getDetailedAssetTvlApiResponse, ha, hp, hts]
      · intro _ _ ts hts
        simp [getDetailedAssetTvlApiResponse, ha, hp, hts]

/-- Witness for C9 at concrete inputs: with no configured tokens the
controller answers INVALID_PROJECT_OR_ASSET without touching a
repository, and with a matching token and project but an empty
latest-timestamp lookup it answers NO_DATA. -/
theorem getDetailedAssetTvlApiResponse_errors_witness :
    ((getDetailedAssetTvlApiResponse
        ⟨fun _ _ => none, fun _ _ _ _ _ => [], fun _ _ _ _ _ => [],
         fun _ _ _ _ => [], fun _ _ _ => [], id, id⟩
        [] [⟨7⟩] 7 1 5 0).1 = .error .INVALID_PROJECT_OR_ASSET) ∧
    ((getDetailedAssetTvlApiResponse
        ⟨fun _ _ => none, fun _ _ _ _ _ => [], fun _ _ _ _ _ => [],
         fun _ _ _ _ => [], fun _ _ _ => [], id, id⟩
        [] [⟨7⟩] 7 1 5 0).2 = []) ∧
    ((getDetailedAssetTvlApiResponse
        ⟨fun _ _ => none, fun _ _ _ _ _ => [], fun _ _ _ _ _ => [],
         fun _ _ _ _ => [], fun _ _ _ => [], id, id⟩
        [⟨5, "ARB", 18⟩] [⟨7⟩] 7 1 5 0).1 = .error .NO_DATA) := by
  have h1 := getDetailedAssetTvlApiResponse_errors
    ⟨fun _ _ => none, fun _ _ _ _ _ => [], fun _ _ _ _ _ => [],
     fun _ _ _ _ => [], fun _ _ _ => [], id, id⟩
    [] [⟨7⟩] 7 1 5 0
  have h2 := getDetailedAssetTvlApiResponse_errors
    ⟨fun _ _ => none, fun _ _ _ _ _ => [], fun _ _ _ _ _ => [],
     fun _ _ _ _ => [], fun _ _ _ => [], id, id⟩
    [⟨5, "ARB", 18⟩] [⟨7⟩] 7 1 5 0
  refine ⟨?_, ?_, ?_⟩
  · exact h1.1.mpr (Or.inl (by intro t ht; cases ht))
  · exact h1.2.1 (h1.1.mpr (Or.inl (by intro t ht; cases ht)))
  · exact h2.2.2.1 ⟨⟨5, "ARB", 18⟩, by simp, rfl⟩ ⟨⟨7⟩, by simp, rfl⟩ rfl

end DetailedTvl

namespace TokenTvl

/-- One point of the token TVL chart built by calculateTokenTvlView. -/
structure ChartPoint where
  x : ℚ
  y : ℚ
  date : String
  balance : ℚ
  symbol : String
  usd : ℚ
  milestone : Option String

/-- The view value returned by calculateTokenTvlView: a TokenTvlChart
with its points, the formatted date range, the y-axis labels and the two
hover fields that the source leaves undefined. -/
structure TokenTvlView where
  chartPoints : List ChartPoint
  dateRange : String
  labels : List String
  showHoverAtIndex : Option Nat
  showMilestoneHover : Option Bool

/-- The controls slice of the state consumed by calculateTokenTvlView:
an optional token symbol, an optional asset type, the selected day range
and the log-scale flag. -/
structure Controls where
  token : Option String
  assetType : Option String
  days : Nat
  isLogScale : Bool

/-- The data slice of the state: token TVL responses looked up by key
(responses are opaque naturals) and milestones looked up by timestamp. -/
structure Data where
  tokenTvl : String → Option Nat
  milestones : Nat → Option String

/-- The external helpers calculateTokenTvlView calls; they are defined
outside the provided sources and enter the model as opaque functions.
Entries are (timestamp, balance, usd) triples and getYAxis yields the
labels together with the y-projection. -/
structure Helpers where
  getTokenTvlKey : String → String → String
  getAppropriateEntries : Nat → Nat → List (Nat × ℚ × ℚ)
  formatRange : Nat → Nat → String
  formatTimestamp : Nat → Bool → String
  formatCurrency : ℚ → String → String
  getYAxis : List ℚ → Bool → (ℚ → String) → List String × (ℚ → ℚ)

/-- calculateTokenTvlView from the frontend chart logic (unnamed source
file part_000). The source indexes entries[0] and
entries[entries.length - 1] unconditionally, which in JS raises a
TypeError when the entries array is empty; that outcome is the error
case of the returned Except, while returning undefined is Except.ok
none. -/
def calculateTokenTvlView (env : Helpers) (data : Data)
    (controls : Controls) : Except Unit (Option TokenTvlView) :=
  match controls.token, controls.assetType with
  | some token, some assetType =>
    let key := env.getTokenTvlKey token assetType
    match data.tokenTvl key with
    | none => .ok none
    | some response =>
      match env.getAppropriateEntries controls.days response with
      | [] => .error ()
      | e0 :: rest =>
        let entries := e0 :: rest
        let dateRange :=
          env.formatRange e0.1 (entries.getLast (List.cons_ne_nil e0 rest)).1
        let axis := env.getYAxis (entries.map (fun x => x.2.1))
          controls.isLogScale (fun x => env.formatCurrency x token)
        let points := entries.enum.map (fun p =>
          ({ x := (p.1 : ℚ) / ((entries.length : ℚ) - 1),
             y := axis.2 p.2.2.1,
             date := env.formatTimestamp p.2.1 true,
             balance := p.2.2.1,
             symbol := token,
             usd := p.2.2.2,
             milestone := data.milestones p.2.1 } : ChartPoint))
        .ok (some ⟨points, dateRange, axis.1, none, none⟩)
  | _, _ => .ok none

/-- C10: calculateTokenTvlView returns undefined (without failing)
exactly if the token control is unset, the asset type control is unset,
or no token TVL response exists under the key derived from them; and
whenever it returns a view, the chart points of that view are in
one-to-one correspondence with the selected entries (their lengths
agree). -/
theorem calculateTokenTvlView_characterization (env : Helpers)
    (data : Data) (controls : Controls) :
    (calculateTokenTvlView env data controls = .ok none ↔
      controls.token = none ∨ controls.assetType = none ∨
      ∃ token assetType, controls.token = some token ∧
        controls.assetType = some assetType ∧
        data.tokenTvl (env.getTokenTvlKey token assetType) = none) ∧
    (∀ v, calculateTokenTvlView env data controls = .ok (some v) →
      ∃ token assetType response, controls.token = some token ∧
        controls.assetType = some assetType ∧
        data.tokenTvl (env.getTokenTvlKey token assetType) = some response ∧
        v.chartPoints.length =
          (env.getAppropriateEntries controls.days response).length) := by
  cases htok : controls.token with
  | none =>
    constructor
    · simp [calculateTokenTvlView, htok]
    · intro v hv
      simp [calculateTokenTvlView, htok] at hv
  | some token =>
    cases hat : controls.assetType with
    | none =>
      constructor
      · simp [calculateTokenTvlView, htok, hat]
      · intro v hv
        simp [calculateTokenTvlView, htok, hat] at hv
    | some assetType =>
      cases hresp : data.tokenTvl (env.getTokenTvlKey token assetType) with
      | none =>
        refine ⟨⟨fun _ => Or.inr (Or.inr ⟨token, assetType, rfl, rfl, hresp⟩),
          fun _ => ?_⟩, ?_⟩
        · simp [calculateTokenTvlView, htok, hat, hresp]
        · intro v hv
          simp [calculateTokenTvlView, htok, hat, hresp] at hv
      | some response =>
        have hmpr : ¬(some token = (none : Option String) ∨
            some assetType = (none : Option String) ∨
            ∃ token2 assetType2, some token = some token2 ∧
              some assetType = some assetType2 ∧
              data.tokenTvl (env.getTokenTvlKey token2 assetType2) = none) := by
          rintro (h | h | ⟨token2, assetType2, ht2, hat2, hre⟩)
          · cases h
          · cases h
          · injection ht2 with e1
            injection hat2 with e2
            subst e1
            subst e2
            rw [hresp] at hre
            cases hre
        cases hent : env.getAppropriateEntries controls.days response with
        | nil =>
          constructor
          · constructor
            · intro h
              simp [calculateTokenTvlView, htok, hat, hresp, hent] at h
            · intro h
              exact absurd h hmpr
          · intro v hv
            simp [calculateTokenTvlView, htok, hat, hresp, hent] at hv
        | cons e0 rest =>
          constructor
          · constructor
            · intro h
              simp [calculateTokenTvlView, htok, hat, hresp, hent] at h
            · intro h
              exact absurd h hmpr
          · intro v hv
            simp [calculateTokenTvlView, htok, hat, hresp, hent] at hv
            refine ⟨token, assetType, response, rfl, rfl, hresp, ?_⟩
            rw [hent, ← hv]
            simp

/-- Witness for C10 at concrete inputs: with the token control unset the
calculator returns undefined. -/
theorem calculateTokenTvlView_characterization_witness :
    calculateTokenTvlView
      ⟨fun _ _ => "", fun _ _ => [], fun _ _ => "", fun _ _ => "",
       fun _ _ => "", fun _ _ _ => ([], id)⟩
      ⟨fun _ => none, fun _ => none⟩
      ⟨none, none, 7, false⟩ = .ok none :=
  (calculateTokenTvlView_characterization
    ⟨fun _ _ => "", fun _ _ => [], fun _ _ => "", fun _ _ => "",
     fun _ _ => "", fun _ _ _ => ([], id)⟩
    ⟨fun _ => none, fun _ => none⟩
    ⟨none, none, 7, false⟩).1.mpr (Or.inl rfl)

end TokenTvl
